import Mathlib

/- A verification model of the GitHub issue analyser's core pipeline:
   the SQLite-backed snapshot store (app/database.py), the paginated
   GitHub fetch (app/github_client.py), the LLM analysis engine
   (app/llm_client.py) and the analyze endpoint (app/main.py).
   Machine behaviour is embedded shallowly: the issues table is a list
   of rows, remote services are explicit functions, and the unbounded
   pagination loop takes a fuel argument. -/

namespace IssueAnalyzer

/-- Raw issue record as returned by the GitHub issues endpoint and passed
to cache_issues. The pull_request field models the presence of the
pull_request key that marks a record as a pull-request surrogate. -/
structure GHIssue where
  id : Nat
  title : String
  body : Option String
  html_url : String
  created_at : String
  pull_request : Bool
deriving DecidableEq

/-- One row of the issues table: the columns selected by the queries in
app/database.py (the cached_at column is written by a default and never
read back, so it is not modelled). The id column is the primary key. -/
structure Row where
  id : Nat
  repo : String
  title : String
  body : String
  html_url : String
  created_at : String
deriving DecidableEq

/-- Conversion performed by the INSERT statement of cache_issues: the body
column stores the empty string when the incoming body is absent
(Python: issue.get('body') or ''). -/
def toRow (repo : String) (i : GHIssue) : Row :=
  { id := i.id, repo := repo, title := i.title, body := i.body.getD "",
    html_url := i.html_url, created_at := i.created_at }

/-- The INSERT loop of cache_issues. The id column is the table's primary
key, so inserting an id already present raises sqlite3.IntegrityError,
which the except branch of cache_issues turns into a failed call; none
models that raised error, in which case the transaction never commits. -/
def insert_issues (repo : String) (issues : List GHIssue) (tbl : List Row) :
    Option (List Row) :=
  match issues with
  | [] => some tbl
  | i :: rest =>
    if tbl.any (fun r => r.id == i.id) then none
    else insert_issues repo rest (tbl ++ [toRow repo i])

/-- cache_issues from app/database.py: delete every row of the given repo,
insert the given issues, and commit; on a sqlite3 error the connection
closes without commit, rolling the transaction back, and False is
returned. The result pairs the returned Bool with the table afterwards. -/
def cache_issues (repo : String) (issues : List GHIssue) (db : List Row) :
    Bool × List Row :=
  let remaining := db.filter (fun r => r.repo != repo)
  match insert_issues repo issues remaining with
  | some tbl => (true, tbl)
  | none => (false, db)

/-- Lexicographic less-or-equal on character lists, modelling the order
SQLite uses to compare TEXT values (bytewise comparison of the UTF-8
encodings, which agrees with comparing Unicode scalar values). -/
def charListLe : List Char → List Char → Bool
  | [], _ => true
  | _ :: _, [] => false
  | a :: as, b :: bs =>
    if a < b then true
    else if b < a then false
    else charListLe as bs

/-- TEXT comparison on strings, as SQLite orders the created_at column. -/
def strLe (a b : String) : Bool :=
  charListLe a.data b.data

theorem charListLe_total :
    ∀ as bs : List Char, charListLe as bs = true ∨ charListLe bs as = true := by
  intro as
  induction as with
  | nil => intro bs; left; rfl
  | cons a as ih =>
    intro bs
    cases bs with
    | nil => right; rfl
    | cons b bs =>
      simp only [charListLe]
      by_cases hab : a < b
      · left; simp [hab]
      · by_cases hba : b < a
        · right; simp [hba]
        · rcases ih bs with h | h
          · left; simp [hab, hba, h]
          · right; simp [hba, hab, h]

theorem charListLe_trans :
    ∀ as bs cs : List Char, charListLe as bs = true → charListLe bs cs = true →
      charListLe as cs = true := by
  intro as
  induction as with
  | nil => intro bs cs _ _; rfl
  | cons a as ih =>
    intro bs cs h1 h2
    cases bs with
    | nil => simp [charListLe] at h1
    | cons b bs =>
      cases cs with
      | nil => simp [charListLe] at h2
      | cons c cs =>
        simp only [charListLe] at h1 h2 ⊢
        by_cases hab : a < b
        · by_cases hbc : b < c
          · simp [lt_trans hab hbc]
          · by_cases hcb : c < b
            · simp [hbc, hcb] at h2
            · have hbceq : b = c := le_antisymm (not_lt.mp hcb) (not_lt.mp hbc)
              subst hbceq
              simp [hab]
        · by_cases hba : b < a
          · simp [hab, hba] at h1
          · have habeq : a = b := le_antisymm (not_lt.mp hba) (not_lt.mp hab)
            subst habeq
            simp only [lt_irrefl, if_neg (lt_irrefl a), if_false] at h1
            by_cases hac : a < c
            · simp [hac]
            · by_cases hca : c < a
              · simp [hac, hca] at h2
              · simp only [hac, hca, if_false] at h2 ⊢
                exact ih bs cs h1 h2

/-- Ordering used by the ORDER BY created_at DESC clause of
get_cached_issues: a row comes before another when its creation timestamp
compares at least the other's in SQLite TEXT order. -/
def createdDesc (a b : Row) : Prop :=
  strLe b.created_at a.created_at = true

instance : DecidableRel createdDesc :=
  fun _ _ => inferInstanceAs (Decidable (_ = true))

instance : IsTotal Row createdDesc :=
  ⟨fun a b => charListLe_total b.created_at.data a.created_at.data⟩

instance : IsTrans Row createdDesc :=
  ⟨fun _ _ _ h1 h2 => charListLe_trans _ _ _ h2 h1⟩

/-- get_cached_issues from app/database.py: select the rows of the repo
ordered by created_at descending; an empty result returns None, a
non-empty one the rows. -/
def get_cached_issues (db : List Row) (repo : String) : Option (List Row) :=
  let rows := List.insertionSort createdDesc (db.filter (fun r => r.repo == repo))
  if rows.isEmpty then none else some rows

/-- repo_exists_in_cache from app/database.py: SELECT COUNT of the rows
with the given repo, true when the count is positive. -/
def repo_exists_in_cache (db : List Row) (repo : String) : Bool :=
  decide (0 < (db.filter (fun r => r.repo == repo)).length)

/-- Sample issue used by concrete witnesses. -/
def g1 : GHIssue :=
  { id := 1, title := "t1", body := some "b1", html_url := "u1",
    created_at := "2024-01-02", pull_request := false }

/-- Second sample issue, older than g1. -/
def g2 : GHIssue :=
  { id := 2, title := "t2", body := none, html_url := "u2",
    created_at := "2023-05-06", pull_request := false }

/-- Sample cached row belonging to repository x/y. -/
def rowXY : Row :=
  { id := 9, repo := "x/y", title := "tx", body := "bx", html_url := "ux",
    created_at := "2022-01-01" }

theorem insert_issues_eq (repo : String) :
    ∀ (issues : List GHIssue) (tbl tbl2 : List Row),
      insert_issues repo issues tbl = some tbl2 →
      tbl2 = tbl ++ issues.map (toRow repo) := by
  intro issues
  induction issues with
  | nil =>
    intro tbl tbl2 h
    simp only [insert_issues, Option.some.injEq] at h
    simp [h]
  | cons i rest ih =>
    intro tbl tbl2 h
    simp only [insert_issues] at h
    split at h
    · exact absurd h (by simp)
    · have h2 := ih (tbl ++ [toRow repo i]) tbl2 h
      simp [h2, List.append_assoc]

theorem cache_issues_ok (repo : String) (issues : List GHIssue)
    (db db2 : List Row) (h : cache_issues repo issues db = (true, db2)) :
    db2 = db.filter (fun r => r.repo != repo) ++ issues.map (toRow repo) := by
  unfold cache_issues at h
  cases hins : insert_issues repo issues (db.filter (fun r => r.repo != repo)) with
  | none => simp only [hins, Prod.mk.injEq] at h; exact absurd h.1 (by simp)
  | some tbl =>
    simp only [hins, Prod.mk.injEq] at h
    rw [← h.2]
    exact insert_issues_eq repo issues _ tbl hins

theorem filter_map_toRow_self (repo : String) (issues : List GHIssue) :
    (issues.map (toRow repo)).filter (fun r => r.repo == repo) =
      issues.map (toRow repo) := by
  apply List.filter_eq_self.mpr
  intro r hr
  rcases List.mem_map.mp hr with ⟨i, _, rfl⟩
  simp [toRow]

theorem filter_map_toRow_other (repo other : String) (h : other ≠ repo)
    (issues : List GHIssue) :
    (issues.map (toRow repo)).filter (fun r => r.repo == other) = [] := by
  apply List.filter_eq_nil_iff.mpr
  intro r hr
  rcases List.mem_map.mp hr with ⟨i, _, rfl⟩
  simp [toRow]
  exact fun hc => absurd hc.symm h

theorem filter_remaining_self (repo : String) (db : List Row) :
    (db.filter (fun r => r.repo != repo)).filter (fun r => r.repo == repo) = [] := by
  apply List.filter_eq_nil_iff.mpr
  intro r hr
  have := (List.mem_filter.mp hr).2
  simp only [bne_iff_ne, ne_eq, decide_not] at this ⊢
  simp only [beq_iff_eq]
  intro hc
  exact absurd hc (by simpa using this)

theorem filter_remaining_other (repo other : String) (h : other ≠ repo)
    (db : List Row) :
    (db.filter (fun r => r.repo != repo)).filter (fun r => r.repo == other) =
      db.filter (fun r => r.repo == other) := by
  rw [List.filter_filter]
  apply List.filter_congr
  intro r _
  by_cases hc : r.repo = other
  · simp [hc, h]
  · simp [hc]

theorem cache_issues_fail (repo : String) (issues : List GHIssue)
    (db db2 : List Row) (h : cache_issues repo issues db = (false, db2)) :
    db2 = db := by
  unfold cache_issues at h
  cases hins : insert_issues repo issues (db.filter (fun r => r.repo != repo)) with
  | none => simp only [hins, Prod.mk.injEq] at h; exact h.2.symm
  | some tbl => simp only [hins, Prod.mk.injEq] at h; exact absurd h.1 (by simp)

theorem filter_after_replace (repo : String) (issues : List GHIssue)
    (db db2 : List Row) (h : cache_issues repo issues db = (true, db2)) :
    db2.filter (fun r => r.repo == repo) = issues.map (toRow repo) := by
  rw [cache_issues_ok repo issues db db2 h, List.filter_append,
    filter_remaining_self, filter_map_toRow_self, List.nil_append]

theorem insertionSort_eq_nil_iff (l : List Row) :
    List.insertionSort createdDesc l = [] ↔ l = [] := by
  constructor
  · intro h
    have hlen := (List.perm_insertionSort createdDesc l).length_eq
    rw [h] at hlen
    exact List.length_eq_zero.mp hlen.symm
  · intro h; subst h; rfl

/-- Claim C1 (amended): exists is false for an untouched key; after a
successful replace it is true exactly when the replaced issue list was
non-empty, so a replace with an empty issue list leaves exists false. -/
theorem c1_exists_iff_nonempty_replace (repo : String) (issues : List GHIssue)
    (db db2 : List Row) (h : cache_issues repo issues db = (true, db2)) :
    (repo_exists_in_cache db2 repo = true ↔ issues ≠ []) ∧
    repo_exists_in_cache [] repo = false := by
  constructor
  · unfold repo_exists_in_cache
    rw [filter_after_replace repo issues db db2 h]
    simp [List.length_pos]
  · rfl

/-- Claim C1 witness at a concrete store. -/
theorem c1_witness :
    (repo_exists_in_cache [toRow "a/b" g1] "a/b" = true ↔ ([g1] : List GHIssue) ≠ []) ∧
    repo_exists_in_cache [] "a/b" = false :=
  c1_exists_iff_nonempty_replace "a/b" [g1] [] [toRow "a/b" g1] (by decide)

/-- Claim C1 counterexample: a successful replace with the empty issue
list leaves the existence check false, against the claim that any
successful replace turns it true. -/
theorem c1_counterexample :
    cache_issues "a/b" ([] : List GHIssue) ([] : List Row) = (true, []) ∧
    repo_exists_in_cache [] "a/b" = false := by decide

/-- Claim C2 (amended): read returns None exactly when the store holds no
row for the key, which happens both for a never-scanned key and right
after a replace with zero issues; when it returns a list, that list is
non-empty and is the stored rows ordered by creation timestamp
descending. -/
theorem c2_read_none_iff_no_rows (db : List Row) (repo : String) :
    (∀ db2, cache_issues repo [] db = (true, db2) →
      get_cached_issues db2 repo = none) ∧
    (get_cached_issues db repo = none ↔ db.filter (fun r => r.repo == repo) = []) ∧
    (∀ l, get_cached_issues db repo = some l →
      l ≠ [] ∧ l.Perm (db.filter (fun r => r.repo == repo)) ∧
        List.Sorted createdDesc l) := by
  refine ⟨?_, ?_, ?_⟩
  · intro db2 h
    have hf := filter_after_replace repo [] db db2 h
    simp only [List.map_nil] at hf
    simp [get_cached_issues, hf]
  · unfold get_cached_issues
    simp only [List.isEmpty_iff]
    constructor
    · intro h
      split at h
      · exact (insertionSort_eq_nil_iff _).mp (by assumption)
      · exact absurd h (by simp)
    · intro h
      simp [h]
  · intro l h
    unfold get_cached_issues at h
    simp only [List.isEmpty_iff] at h
    split at h
    · exact absurd h (by simp)
    · have hl : List.insertionSort createdDesc
          (db.filter (fun r => r.repo == repo)) = l := by
        exact Option.some.inj h
      refine ⟨?_, ?_, ?_⟩
      · rw [← hl]; assumption
      · rw [← hl]; exact List.perm_insertionSort createdDesc _
      · rw [← hl]; exact List.sorted_insertionSort createdDesc _

/-- Claim C2 witness: after replacing the snapshot of a/b with the empty
list over a store holding a row of another repository, read on a/b
returns None. -/
theorem c2_witness : get_cached_issues [rowXY] "a/b" = none :=
  (c2_read_none_iff_no_rows [rowXY] "a/b").1 [rowXY] (by decide)

/-- Claim C2 counterexample: a replace with zero issues succeeds, yet the
subsequent read returns None and not the empty list the claim requires. -/
theorem c2_counterexample :
    cache_issues "c/d" ([] : List GHIssue) [rowXY] = (true, [rowXY]) ∧
    get_cached_issues [rowXY] "c/d" = none ∧
    get_cached_issues [rowXY] "c/d" ≠ some [] := by decide

/-- Claim C4 (amended): when a replace succeeds, an immediate read returns
exactly the replaced issues ordered by creation timestamp descending if
the list was non-empty, and returns None (not the empty list) if the
replaced list was empty. -/
theorem c4_replace_read_roundtrip (repo : String) (issues : List GHIssue)
    (db db2 : List Row) (h : cache_issues repo issues db = (true, db2)) :
    (issues = [] → get_cached_issues db2 repo = none) ∧
    (issues ≠ [] → ∃ l, get_cached_issues db2 repo = some l ∧
      l.Perm (issues.map (toRow repo)) ∧ List.Sorted createdDesc l) := by
  have hf := filter_after_replace repo issues db db2 h
  constructor
  · intro he
    subst he
    simp only [List.map_nil] at hf
    simp [get_cached_issues, hf]
  · intro hne
    refine ⟨List.insertionSort createdDesc (issues.map (toRow repo)), ?_, ?_, ?_⟩
    · unfold get_cached_issues
      rw [hf]
      rw [if_neg ?_]
      simp only [List.isEmpty_iff, insertionSort_eq_nil_iff]
      simp [hne]
    · exact List.perm_insertionSort createdDesc _
    · exact List.sorted_insertionSort createdDesc _

/-- Claim C4 witness: replacing the empty store with two concrete issues
and reading back returns exactly those issues, sorted. -/
theorem c4_witness :
    ∃ l, get_cached_issues [toRow "a/b" g1, toRow "a/b" g2] "a/b" = some l ∧
      l.Perm ([g1, g2].map (toRow "a/b")) ∧ List.Sorted createdDesc l :=
  (c4_replace_read_roundtrip "a/b" [g1, g2] []
    [toRow "a/b" g1, toRow "a/b" g2] (by decide)).2 (by decide)

/-- Claim C4 counterexample: for the empty issue list, replace followed by
read returns None rather than the replaced (empty) list of issues. -/
theorem c4_counterexample :
    cache_issues "e/f" ([] : List GHIssue) ([] : List Row) = (true, []) ∧
    get_cached_issues [] "e/f" ≠ some (([] : List GHIssue).map (toRow "e/f")) := by
  decide

/-- Claim C10: a replace for one repository key never deletes or inserts a
row of a different key, whether the replace succeeds or fails. -/
theorem c10_replace_frame (repo other : String) (issues : List GHIssue)
    (db : List Row) (h : other ≠ repo) :
    (cache_issues repo issues db).2.filter (fun r => r.repo == other) =
      db.filter (fun r => r.repo == other) := by
  rcases hc : cache_issues repo issues db with ⟨b, db2⟩
  show db2.filter (fun r => r.repo == other) = db.filter (fun r => r.repo == other)
  cases b
  · rw [cache_issues_fail repo issues db db2 hc]
  · rw [cache_issues_ok repo issues db db2 hc, List.filter_append,
      filter_remaining_other repo other h,
      filter_map_toRow_other repo other h, List.append_nil]

/-- Claim C10 witness: replacing the snapshot of a/b leaves the row of
x/y in place. -/
theorem c10_witness :
    (cache_issues "a/b" [g1] [rowXY]).2.filter (fun r => r.repo == "x/y") =
      [rowXY].filter (fun r => r.repo == "x/y") :=
  c10_replace_frame "a/b" "x/y" [g1] [rowXY] (by decide)

/-- Result dictionary returned by analyze_issues in app/llm_client.py,
with its success, analysis and error keys. -/
structure LLMResult where
  success : Bool
  analysis : String
  error : Option String
deriving DecidableEq

/-- Body truncation in format_issues_for_llm: a non-empty body longer than
500 characters is cut to its first 500 characters plus an ellipsis
(Python: if body and len(body) > 500). -/
def truncate_body (body : String) : String :=
  if body ≠ "" ∧ 500 < body.length then body.take 500 ++ "..." else body

/-- Description field of an issue block: the possibly truncated body, or a
placeholder when that is empty
(Python: body if body else "No description provided"). -/
def description_text (body : String) : String :=
  let b := truncate_body body
  if b ≠ "" then b else "No description provided"

/-- One labeled block of format_issues_for_llm for the issue at 1-based
position idx. The .get defaults for title, created_at and html_url never
fire on rows read from the database, whose keys are always present. -/
def format_issue_block (idx : Nat) (i : Row) : String :=
  "Issue #" ++ toString idx ++ ":\nTitle: " ++ i.title ++
    "\nCreated: " ++ i.created_at ++ "\nURL: " ++ i.html_url ++
    "\nDescription: " ++ description_text i.body ++ "\n---"

/-- The enumerate(issues, 1) loop of format_issues_for_llm. -/
def format_blocks (idx : Nat) (issues : List Row) : List String :=
  match issues with
  | [] => []
  | i :: rest => format_issue_block idx i :: format_blocks (idx + 1) rest

/-- format_issues_for_llm from app/llm_client.py: the issue blocks joined
with a blank-line separator. -/
def format_issues_for_llm (issues : List Row) : String :=
  String.intercalate "\n\n" (format_blocks 1 issues)

/-- Size guard of analyze_issues: more than 100 input issues are cut down
to the first 50 in input order. -/
def limit_issues (issues : List Row) : List Row :=
  if 100 < issues.length then issues.take 50 else issues

/-- The fixed system instruction of analyze_issues. -/
def system_prompt : String :=
  "You are a GitHub issue analyzer. Analyze the provided issues " ++
    "and respond to the user's request clearly and concisely. " ++
    "Focus on actionable insights and patterns."

/-- The user message submitted by analyze_issues: the prompt followed by
the formatted issue blocks. -/
def user_message (user_prompt : String) (issues : List Row) : String :=
  user_prompt ++ "\n\nIssues to analyze:\n\n" ++ format_issues_for_llm issues

/-- Fixed number of attempts of the retry loop (max_retries = 2). -/
def max_retries : Nat := 2

/-- The retry loop of analyze_issues (for attempt in range(max_retries)):
each attempt calls the backend; a failure on the last attempt re-raises
its own exception, while an earlier failure only logs and continues.
Returns the outcome and the number of calls made. The remaining = 0 case
is unreachable, as the code fixes max_retries = 2. -/
def run_attempts (call : Nat → Except String String) :
    Nat → Nat → Except String String × Nat
  | _, 0 => (Except.error "", 0)
  | attempt, 1 => (call attempt, 1)
  | attempt, remaining + 2 =>
    match call attempt with
    | Except.ok a => (Except.ok a, 1)
    | Except.error _ =>
      let r := run_attempts call (attempt + 1) (remaining + 1)
      (r.1, r.2 + 1)

/-- The outer try/except of analyze_issues: a successful attempt becomes
the success dictionary, a re-raised exception is caught and wrapped into
the failure dictionary with the LLM analysis error prefix. -/
def wrap_result (r : Except String String × Nat) : LLMResult × Nat :=
  match r with
  | (Except.ok a, n) => ({ success := true, analysis := a, error := none }, n)
  | (Except.error e, n) =>
    ({ success := false, analysis := "", error := some ("LLM analysis error: " ++ e) }, n)

/-- analyze_issues from app/llm_client.py. The configured flag models
whether the module-level Groq client exists (GROQ_API_KEY present); the
backend function models client.chat.completions.create, taking the
system message, the user message and the attempt index and returning the
analysis text or the message of the exception the call raised. The
result pairs the returned dictionary with the number of backend calls. -/
def analyze_issues (configured : Bool)
    (backend : String → String → Nat → Except String String)
    (issues : List Row) (user_prompt : String) : LLMResult × Nat :=
  if !configured then
    ({ success := false, analysis := "", error := some "Groq API key not configured" }, 0)
  else
    wrap_result (run_attempts
      (backend system_prompt (user_message user_prompt (limit_issues issues)))
      0 max_retries)

theorem run_attempts_two_failures (call : Nat → Except String String)
    (e1 e2 : String) (h1 : call 0 = Except.error e1)
    (h2 : call 1 = Except.error e2) :
    run_attempts call 0 2 = (Except.error e2, 2) := by
  have key : run_attempts call 0 2 =
      ((run_attempts call 1 1).1, (run_attempts call 1 1).2 + 1) := by
    show (match call 0 with
      | Except.ok a => (Except.ok a, 1)
      | Except.error _ =>
        ((run_attempts call 1 1).1, (run_attempts call 1 1).2 + 1)) =
      ((run_attempts call 1 1).1, (run_attempts call 1 1).2 + 1)
    rw [h1]
  rw [key]
  have key2 : run_attempts call 1 1 = (call 1, 1) := rfl
  rw [key2, h2]

/-- Claim C5 (amended): when both backend attempts of one analyze call
fail, exactly 2 attempts are made and a structured failure dictionary is
returned, never an unhandled fault; the surfaced detail is the second,
final failure rather than the original first one. -/
theorem c5_two_failures (backend : String → String → Nat → Except String String)
    (issues : List Row) (p e1 e2 : String)
    (h1 : ∀ s u, backend s u 0 = Except.error e1)
    (h2 : ∀ s u, backend s u 1 = Except.error e2) :
    analyze_issues true backend issues p =
      ({ success := false, analysis := "",
         error := some ("LLM analysis error: " ++ e2) }, 2) := by
  have hr := run_attempts_two_failures
    (backend system_prompt (user_message p (limit_issues issues))) e1 e2
    (h1 _ _) (h2 _ _)
  show wrap_result (run_attempts
      (backend system_prompt (user_message p (limit_issues issues))) 0 2) = _
  rw [hr]
  rfl

/-- Backend that raises a distinct exception on each of its two calls. -/
def failTwice : String → String → Nat → Except String String :=
  fun _ _ n => Except.error (if n = 0 then "first" else "second")

/-- Claim C5 witness: a backend failing both attempts with distinct
messages yields the failure dictionary carrying the second message after
exactly 2 calls. -/
theorem c5_witness :
    analyze_issues true failTwice [] "p" =
      ({ success := false, analysis := "",
         error := some ("LLM analysis error: " ++ "second") }, 2) :=
  c5_two_failures failTwice [] "p" "first" "second"
    (fun _ _ => rfl) (fun _ _ => rfl)

/-- Claim C5 counterexample: with two distinct consecutive failures the
surfaced detail is the second failure, not the original first one the
claim requires. -/
theorem c5_counterexample :
    (analyze_issues true failTwice [] "p").1.error =
      some "LLM analysis error: second" ∧
    (analyze_issues true failTwice [] "p").1.error ≠
      some "LLM analysis error: first" ∧
    (analyze_issues true failTwice [] "p").2 = 2 := by decide

/-- Claim C7: with more than 100 input issues, exactly the first 50 in
input order are submitted to the backend and the engine behaves exactly
as if invoked on those 50 alone; with 100 issues or fewer, all of them
are submitted. -/
theorem c7_size_guard (issues : List Row) :
    (issues.length ≤ 100 → limit_issues issues = issues) ∧
    (100 < issues.length → limit_issues issues = issues.take 50 ∧
      (limit_issues issues).length = 50 ∧
      ∀ (configured : Bool)
        (backend : String → String → Nat → Except String String) (p : String),
        analyze_issues configured backend issues p =
          analyze_issues configured backend (issues.take 50) p) := by
  constructor
  · intro h
    unfold limit_issues
    rw [if_neg (by omega)]
  · intro h
    have hlim : limit_issues issues = issues.take 50 := by
      unfold limit_issues; rw [if_pos h]
    have hlen : (issues.take 50).length = 50 := by
      simp [List.length_take]; omega
    have hlim2 : limit_issues (issues.take 50) = issues.take 50 := by
      unfold limit_issues
      rw [if_neg (by omega)]
    refine ⟨hlim, by rw [hlim]; exact hlen, ?_⟩
    intro configured backend p
    unfold analyze_issues
    rw [hlim, hlim2]

/-- A 120-issue input list for the size-guard witness. -/
def rows120 : List Row :=
  (List.range 120).map (fun n =>
    { id := n, repo := "a/b", title := "t", body := "b", html_url := "u",
      created_at := "2024" })

/-- Claim C7 witness: 120 input issues are cut to exactly the first 50. -/
theorem c7_witness :
    limit_issues rows120 = rows120.take 50 ∧ (limit_issues rows120).length = 50 :=
  ⟨((c7_size_guard rows120).2 (by decide)).1,
    ((c7_size_guard rows120).2 (by decide)).2.1⟩

/-- Claim C9 (amended): a body longer than 500 characters renders as its
first 500 characters plus the ellipsis marker; a non-empty body of at
most 500 characters renders unchanged; the empty body renders as the
fixed placeholder instead of unchanged. -/
theorem c9_truncation (body : String) :
    (500 < body.length → description_text body = body.take 500 ++ "...") ∧
    (body ≠ "" → body.length ≤ 500 → description_text body = body) ∧
    description_text "" = "No description provided" := by
  refine ⟨?_, ?_, by decide⟩
  · intro h
    have hne : body ≠ "" := by
      intro he; rw [he] at h; exact absurd h (by decide)
    have htr : truncate_body body = body.take 500 ++ "..." := by
      unfold truncate_body; rw [if_pos ⟨hne, h⟩]
    have hb : body.take 500 ++ "..." ≠ "" := by
      intro hcontra
      have hlen := congrArg String.length hcontra
      rw [String.length_append] at hlen
      have h3 : ("..." : String).length = 3 := rfl
      have h0 : ("" : String).length = 0 := rfl
      omega
    simp only [description_text]
    rw [htr, if_pos hb]
  · intro hne hle
    have htr : truncate_body body = body := by
      unfold truncate_body
      rw [if_neg (fun hc => absurd hc.2 (by omega))]
    simp only [description_text]
    rw [htr, if_pos hne]

/-- A 600-character body for the truncation witness. -/
def body600 : String :=
  String.mk (List.replicate 600 'x')

set_option maxRecDepth 4000 in
/-- Claim C9 witness: the 600-character body renders as its first 500
characters plus the ellipsis, and a short non-empty body unchanged. -/
theorem c9_witness :
    description_text body600 = body600.take 500 ++ "..." ∧
    description_text "abc" = "abc" :=
  ⟨(c9_truncation body600).1 (by decide),
    (c9_truncation "abc").2.1 (by decide) (by decide)⟩

/-- Claim C9 counterexample: the empty body, which has fewer than 500
characters, is not rendered unchanged but as the placeholder text. -/
theorem c9_counterexample :
    description_text "" ≠ "" ∧
    description_text "" = "No description provided" := by decide

/-- Outcome of one requests.get against the issues endpoint, as
fetch_all_issues distinguishes them: a 200 response carrying its JSON
item list, any other status code, a timeout, or a transport fault. -/
inductive PageResp where
  | ok (items : List GHIssue)
  | status (code : Nat)
  | timeout
  | netError (msg : String)
deriving DecidableEq

/-- Result dictionary of fetch_all_issues, with its success, issues and
error keys. -/
structure FetchResult where
  success : Bool
  issues : List GHIssue
  error : Option String
deriving DecidableEq

/-- Page size, fixed at the GitHub maximum (per_page = 100). -/
def per_page : Nat := 100

/-- The rate-limit error message, extended with guidance when no token is
configured. -/
def rate_limit_msg (tokenConfigured : Bool) : String :=
  if tokenConfigured then "GitHub API rate limit exceeded"
  else "GitHub API rate limit exceeded. Add GITHUB_TOKEN to .env for higher limits"

/-- The while-True pagination loop of fetch_all_issues. The remote
function models one requests.get per page number; fuel bounds how many
iterations the model unrolls, since the source loop is unbounded; the
visited list records the page numbers requested, in request order. Every
terminating run of the source corresponds to a sufficiently large fuel;
exhausted fuel reports a failure no source path produces. -/
def fetch_pages (repo : String) (remote : Nat → PageResp)
    (tokenConfigured : Bool) :
    Nat → Nat → List GHIssue → List Nat → FetchResult × List Nat
  | 0, _, _, visited =>
    ({ success := false, issues := [], error := some "fuel exhausted" }, visited)
  | fuel + 1, page, acc, visited =>
    match remote page with
    | PageResp.status code =>
      if code = 403 then
        ({ success := false, issues := [],
           error := some (rate_limit_msg tokenConfigured) }, visited ++ [page])
      else if code = 404 then
        ({ success := false, issues := [],
           error := some ("Repository '" ++ repo ++ "' not found") }, visited ++ [page])
      else
        ({ success := false, issues := [],
           error := some ("GitHub API error: " ++ toString code) }, visited ++ [page])
    | PageResp.ok items =>
      if items.isEmpty then
        ({ success := true, issues := acc, error := none }, visited ++ [page])
      else
        let actual := items.filter (fun i => !i.pull_request)
        let acc2 := acc ++ actual
        if items.length < per_page then
          ({ success := true, issues := acc2, error := none }, visited ++ [page])
        else
          fetch_pages repo remote tokenConfigured fuel (page + 1) acc2 (visited ++ [page])
    | PageResp.timeout =>
      ({ success := false, issues := [],
         error := some "GitHub API request timed out" }, visited ++ [page])
    | PageResp.netError m =>
      ({ success := false, issues := [],
         error := some ("Network error while fetching issues: " ++ m) }, visited ++ [page])

/-- fetch_all_issues from app/github_client.py: paginate starting at page
1 with an empty accumulator. -/
def fetch_all_issues (repo : String) (remote : Nat → PageResp)
    (tokenConfigured : Bool) (fuel : Nat) : FetchResult × List Nat :=
  fetch_pages repo remote tokenConfigured fuel 1 [] []

theorem fetch_pages_run (repo : String) (remote : Nat → PageResp) (tok : Bool)
    (items : Nat → List GHIssue) (k : Nat)
    (hfull : ∀ p, p < k → 1 ≤ p →
      remote p = PageResp.ok (items p) ∧ (items p).length = per_page)
    (hlast : remote k = PageResp.ok (items k))
    (hshort : (items k).length < per_page) :
    ∀ fuel p acc visited, 1 ≤ p → p ≤ k → k + 1 - p ≤ fuel →
      fetch_pages repo remote tok fuel p acc visited =
        ({ success := true,
           issues := acc ++ (List.range' p (k + 1 - p)).flatMap
             (fun q => (items q).filter (fun i => !i.pull_request)),
           error := none }, visited ++ List.range' p (k + 1 - p)) := by
  intro fuel
  induction fuel with
  | zero =>
    intro p acc visited h1 h2 h3
    exact absurd h3 (by omega)
  | succ fuel ih =>
    intro p acc visited h1 h2 h3
    by_cases hpk : p = k
    · subst hpk
      have hn : p + 1 - p = 1 := by omega
      rw [hn, List.range'_one]
      simp only [fetch_pages, hlast]
      by_cases hemp : (items p).isEmpty = true
      · rw [if_pos hemp]
        have hnil : items p = [] := List.isEmpty_iff.mp hemp
        simp [hnil]
      · rw [if_neg hemp, if_pos hshort]
        simp
    · have hplt : p < k := lt_of_le_of_ne h2 hpk
      obtain ⟨hrem, hlen⟩ := hfull p hplt h1
      have hne : items p ≠ [] := by
        intro h0; rw [h0] at hlen; simp [per_page] at hlen
      simp only [fetch_pages, hrem]
      rw [if_neg (by simp [List.isEmpty_iff, hne]), if_neg (by omega)]
      have hrec := ih (p + 1) (acc ++ (items p).filter (fun i => !i.pull_request))
        (visited ++ [p]) (by omega) (by omega) (by omega)
      rw [hrec]
      have hn : k + 1 - p = (k + 1 - (p + 1)) + 1 := by omega
      rw [hn, List.range'_succ]
      simp [List.append_assoc]

/-- Claim C6: when pages 1 through k - 1 each return exactly the page
size of 100 items and page k returns fewer (possibly zero), the fetch
requests exactly the pages 1, 2, ..., k in that strictly increasing
order, stops at page k, and succeeds with the filtered pages
concatenated in encounter order. -/
theorem c6_pagination (repo : String) (remote : Nat → PageResp) (tok : Bool)
    (items : Nat → List GHIssue) (k fuel : Nat) (hk : 1 ≤ k)
    (hfull : ∀ p, p < k → 1 ≤ p →
      remote p = PageResp.ok (items p) ∧ (items p).length = per_page)
    (hlast : remote k = PageResp.ok (items k))
    (hshort : (items k).length < per_page) (hfuel : k ≤ fuel) :
    fetch_all_issues repo remote tok fuel =
      ({ success := true,
         issues := (List.range' 1 k).flatMap
           (fun q => (items q).filter (fun i => !i.pull_request)),
         error := none }, List.range' 1 k) := by
  unfold fetch_all_issues
  have h := fetch_pages_run repo remote tok items k hfull hlast hshort
    fuel 1 [] [] (by omega) hk (by omega)
  rw [h]
  have hn : k + 1 - 1 = k := by omega
  rw [hn]
  simp

/-- Concrete page contents for the C6 witness: three full pages of 100
issues, then a fourth page of 37. -/
def itemsC (p : Nat) : List GHIssue :=
  if p < 4 then List.replicate 100 g1 else List.replicate 37 g1

/-- Concrete remote for the C6 witness: every page responds 200. -/
def remoteC : Nat → PageResp :=
  fun p => PageResp.ok (itemsC p)

set_option maxRecDepth 8000 in
/-- Claim C6 witness: 3 pages of 100 items and a 4th page of 37, none
pull-request-shaped, succeed with exactly 337 issues after visiting
pages 1 through 4. -/
theorem c6_witness :
    fetch_all_issues "o/r" remoteC false 10 =
      ({ success := true,
         issues := (List.range' 1 4).flatMap
           (fun q => (itemsC q).filter (fun i => !i.pull_request)),
         error := none }, List.range' 1 4) ∧
    ((List.range' 1 4).flatMap
      (fun q => (itemsC q).filter (fun i => !i.pull_request))).length = 337 :=
  ⟨c6_pagination "o/r" remoteC false itemsC 4 10 (by decide) (by decide)
    (by decide) (by decide) (by decide), by decide⟩

theorem fetch_pages_no_pr (repo : String) (remote : Nat → PageResp) (tok : Bool) :
    ∀ fuel page acc visited, (∀ y ∈ acc, y.pull_request = false) →
      ∀ x ∈ (fetch_pages repo remote tok fuel page acc visited).1.issues,
        x.pull_request = false := by
  intro fuel
  induction fuel with
  | zero =>
    intro page acc visited hacc x hx
    simp [fetch_pages] at hx
  | succ fuel ih =>
    intro page acc visited hacc x hx
    cases hrem : remote page with
    | status code =>
      simp only [fetch_pages, hrem] at hx
      split at hx
      · simp at hx
      · split at hx <;> simp at hx
    | ok items =>
      simp only [fetch_pages, hrem] at hx
      split at hx
      · exact hacc x (by simpa using hx)
      · split at hx
        · have hx2 : x ∈ acc ∨ (x ∈ items ∧ x.pull_request = false) := by
            simpa using hx
          rcases hx2 with hmem | hmem
          · exact hacc x hmem
          · exact hmem.2
        · refine ih (page + 1) _ (visited ++ [page]) ?_ x hx
          intro y hy
          rcases List.mem_append.mp hy with hmem | hmem
          · exact hacc y hmem
          · have := (List.mem_filter.mp hmem).2
            simpa using this
    | timeout =>
      simp only [fetch_pages, hrem] at hx
      simp at hx
    | netError m =>
      simp only [fetch_pages, hrem] at hx
      simp at hx

/-- Claim C8: a pull-request-shaped record is never present in the output
of fetch_all_issues, wherever it sits in the paginated stream. -/
theorem c8_no_pull_requests (repo : String) (remote : Nat → PageResp)
    (tok : Bool) (fuel : Nat) (x : GHIssue)
    (hx : x ∈ (fetch_all_issues repo remote tok fuel).1.issues) :
    x.pull_request = false :=
  fetch_pages_no_pr repo remote tok fuel 1 [] [] (by intro y hy; simp at hy) x hx

/-- Pull-request surrogate record for the C8 witness. -/
def prIssue : GHIssue :=
  { id := 5, title := "pr", body := none, html_url := "up",
    created_at := "2024", pull_request := true }

/-- Remote whose single short page mixes a pull request with an issue. -/
def remoteMixed : Nat → PageResp :=
  fun _ => PageResp.ok [prIssue, g1]

/-- Claim C8 witness: the issue that survives the filter of a mixed page
carries no pull-request marker. -/
theorem c8_witness : g1.pull_request = false :=
  c8_no_pull_requests "o/r" remoteMixed false 5 g1 (by decide)

/-- Python str.strip on a character list: leading and trailing whitespace
removed. -/
def strip_list (l : List Char) : List Char :=
  ((l.dropWhile Char.isWhitespace).reverse.dropWhile Char.isWhitespace).reverse

/-- Python str.strip: the string with leading and trailing whitespace
removed. -/
def strip (s : String) : String :=
  String.mk (strip_list s.data)

/-- Python str.split on the single separator character: every occurrence
splits, and adjacent separators yield empty segments. -/
def split_slash : List Char → List (List Char)
  | [] => [[]]
  | c :: rest =>
    if c = '/' then [] :: split_slash rest
    else
      match split_slash rest with
      | [] => [[c]]
      | h :: t => (c :: h) :: t

/-- validate_repo_format from app/utils.py: the repo string must split on
the separator into exactly two segments, each non-blank after stripping. -/
def validate_repo_format (repo : String) : Bool :=
  let parts := split_slash repo.data
  parts.length == 2 && parts.all (fun part => !(strip_list part).isEmpty)

/-- Externally visible outcome of the analyze endpoint: a 200 response
carrying the analysis, or an HTTPException with its status code and the
error field of its detail payload. -/
inductive AnalyzeOutcome where
  | ok (analysis : String)
  | httpError (status : Nat) (error : String)
deriving DecidableEq

/-- analyze_repo from app/main.py, the POST /analyze handler: input
trimming and validation, the existence gate, the cache read, the
zero-issue degenerate answer, and the LLM call. The result pairs the
response with the number of backend calls made. When the LLM call fails
its error field is always set, so the getD default never fires. -/
def analyze_repo (db : List Row) (configured : Bool)
    (backend : String → String → Nat → Except String String)
    (repo0 prompt0 : String) : AnalyzeOutcome × Nat :=
  let repo := strip repo0
  let user_prompt := strip prompt0
  if !validate_repo_format repo then
    (AnalyzeOutcome.httpError 400 "Invalid repository format", 0)
  else if user_prompt == "" then
    (AnalyzeOutcome.httpError 400 "Empty prompt", 0)
  else if !repo_exists_in_cache db repo then
    (AnalyzeOutcome.httpError 400 "Repository not yet scanned", 0)
  else
    match get_cached_issues db repo with
    | none => (AnalyzeOutcome.httpError 500 "Failed to retrieve cached issues", 0)
    | some issues =>
      if issues.length == 0 then
        (AnalyzeOutcome.ok ("The repository '" ++ repo ++
          "' has no open issues to analyze."), 0)
      else
        let r := analyze_issues configured backend issues user_prompt
        if !r.1.success then
          (AnalyzeOutcome.httpError 500 (r.1.error.getD ""), r.2)
        else
          (AnalyzeOutcome.ok r.1.analysis, r.2)

/-- Claim C3 (amended): a key whose most recent successful scan stored
zero issues does not pass the existence gate; analyze rejects it with
the Repository-not-yet-scanned error, exactly as if it had never been
scanned, and makes no backend call; the fixed no-open-issues answer is
not produced. -/
theorem c3_zero_snapshot_gate (db db2 : List Row) (configured : Bool)
    (backend : String → String → Nat → Except String String)
    (repo prompt : String) (hv : validate_repo_format repo = true)
    (htrim : strip repo = repo) (hp : strip prompt ≠ "")
    (h : cache_issues repo [] db = (true, db2)) :
    analyze_repo db2 configured backend repo prompt =
      (AnalyzeOutcome.httpError 400 "Repository not yet scanned", 0) := by
  have hex : repo_exists_in_cache db2 repo = false := by
    unfold repo_exists_in_cache
    rw [filter_after_replace repo [] db db2 h]
    simp
  unfold analyze_repo
  rw [htrim]
  simp [hv, hex, hp]

/-- Backend that always succeeds, for the C3 scenarios. -/
def backendOk : String → String → Nat → Except String String :=
  fun _ _ _ => Except.ok "fine"

/-- Claim C3 witness: with a store holding only another repository's row,
a successful zero-issue replace for a/b leaves analyze of a/b rejected
at the gate with no backend call. -/
theorem c3_witness :
    analyze_repo [rowXY] true backendOk "a/b" "p" =
      (AnalyzeOutcome.httpError 400 "Repository not yet scanned", 0) :=
  c3_zero_snapshot_gate [rowXY] [rowXY] true backendOk "a/b" "p"
    (by decide) (by decide) (by decide) (by decide)

/-- Claim C3 counterexample: after a successful scan of a/b that stored
zero issues, analyze does not pass the gate and does not return the
fixed no-open-issues message; it returns the not-yet-scanned error. -/
theorem c3_counterexample :
    cache_issues "a/b" ([] : List GHIssue) ([] : List Row) = (true, ([] : List Row)) ∧
    analyze_repo [] true backendOk "a/b" "p" =
      (AnalyzeOutcome.httpError 400 "Repository not yet scanned", 0) ∧
    analyze_repo [] true backendOk "a/b" "p" ≠
      (AnalyzeOutcome.ok "The repository 'a/b' has no open issues to analyze.", 0) := by
  decide

end IssueAnalyzer
